/-
Verification of the document ingestion and per-page streaming pipeline
(`iterate_document_items` in src/core/file_handler.py) of the ocr_pipeline
repository, against its natural-language specification.

Shallow embedding. The Python generator walks an input directory, classifies
files by extension, decodes images, probes PDFs for their page count and
renders PDF pages one at a time, yielding `(metadata, image)` pairs, or
`(None, None)` on a per-item failure.  We model:

  * the filesystem walk as a `ScanInput`: either the root is inaccessible
    (`os.walk` yields nothing / raises, caught at lines 155-158) or it
    produces a list of `FileEntry` in traversal order;
  * each external operation's outcome as data on the `FileEntry`:
    `imageOpen` is the result of `Image.open` + `load` (`none` = raises),
    `pdfInfo` is the result of `pdfinfo_from_path(...).get("Pages", 0)`
    (`none` = raises one of the caught exceptions; the page count is a
    parsed non-negative integer, so it is a `Nat` and the source's
    `total_pages <= 0` test is `= 0` here), and `render first last` is the
    list returned by `convert_from_path(..., first_page=first,
    last_page=last)` (`none` = raises);
  * the generator as a total function returning the list of yielded items
    together with the trace of single-page render calls it issued.
    Totality of this function is the model of "no exception escapes the
    stream boundary": every exception in the source is caught and turned
    into a yielded `(None, None)` or into silently ending the walk.

Paths are modelled POSIX-style ('/'-separated); names produced by the walk
contain no path separator.
-/
import Mathlib

set_option linter.unusedVariables false

namespace OcrPipeline

/-- `'image' | 'pdf_page'`, the `source_type` field of the yielded metadata. -/
inductive SourceType where
  | image
  | pdf_page
deriving DecidableEq, Repr

/-- The metadata dict built at file_handler.py lines 66-73 and 116-123. -/
structure Metadata where
  input_directory : String
  relative_path : String
  original_filename : String
  source_path : String
  source_type : SourceType
  page_num : Nat
deriving DecidableEq, Repr

/-- An opaque decoded bitmap (PIL image); only identity matters here. -/
structure RasterImage where
  imgId : Nat
deriving DecidableEq, Repr

/-- One yielded element of the generator: `(metadata, pil_image)` on success,
`(None, None)` on a per-item failure. -/
abbrev Item := Option Metadata × Option RasterImage

/-- One invocation of `convert_from_path(file_path, dpi=pdf_dpi,
first_page=..., last_page=...)` (file_handler.py lines 106-112). -/
structure RenderCall where
  file_path : String
  dpi : Nat
  first_page : Nat
  last_page : Nat
deriving DecidableEq, Repr

/-- One file produced by the `os.walk` traversal, together with the outcome
of every external operation the generator may apply to it.
`subdir` is the directory of the file relative to the scanned root
(`[]` = the root itself); `name` is `item_name`.  `relpathFails` models
`os.path.relpath` raising `ValueError` for this entry (lines 52-57). -/
structure FileEntry where
  subdir : List String
  name : String
  relpathFails : Bool
  imageOpen : Option RasterImage
  pdfInfo : Option Nat
  render : Nat → Nat → Option (List RasterImage)

/-- The outcome of `os.walk(input_dir_abs)`: either the root is missing or
unlistable (the walk produces nothing, or raises and is caught at lines
155-158), or it lists these entries in traversal order. -/
inductive ScanInput where
  | inaccessible
  | dirs (entries : List FileEntry)

/-- `config.get('pdf_dpi', 300)` (file_handler.py line 31). -/
structure Config where
  pdf_dpi : Option Nat

def configPdfDpi (c : Config) : Nat := c.pdf_dpi.getD 300

/-! ### Path helpers (POSIX model of the `os.path` calls used) -/

/-- `str.lower()` on the characters of a name. -/
def lowerStr (s : String) : String := String.mk (s.data.map Char.toLower)

/-- Split a character list at its last `'.'`: returns
`(chars before the last dot, last dot and everything after)`, or `none`
when there is no dot. -/
def splitLastDot : List Char → Option (List Char × List Char)
  | [] => none
  | c :: rest =>
    match splitLastDot rest with
    | some (b, e) => some (c :: b, e)
    | none => if c = '.' then some ([], c :: rest) else none

/-- `os.path.splitext` on a bare file name (no separators): the extension
starts at the last dot, provided some character before that dot is not
itself a dot (so `".bashrc"` and `"..txt"` have no extension). -/
def splitext (s : String) : String × String :=
  match splitLastDot s.data with
  | some (b, e) =>
    if b.any (fun c => decide (c ≠ '.')) then (String.mk b, String.mk e) else (s, "")
  | none => (s, "")

/-- `_, file_extension = os.path.splitext(item_name.lower())`
(file_handler.py line 49). -/
def extOf (name : String) : String := (splitext (lowerStr name)).2

/-- `SUPPORTED_IMAGE_EXT` (file_handler.py line 14). -/
def SUPPORTED_IMAGE_EXT : List String := [".jpg", ".jpeg", ".png", ".bmp", ".tiff", ".tif"]

/-- `SUPPORTED_PDF_EXT` (file_handler.py line 15). -/
def SUPPORTED_PDF_EXT : List String := [".pdf"]

/-- `os.path.join` of nonempty path components, POSIX-style. -/
def joinPath (parts : List String) : String := String.intercalate "/" parts

/-- Strip trailing `'/'` and `'\\'` (`input_dir_abs.rstrip('/\\')`, line 33). -/
def rstripSlashes (s : String) : String :=
  String.mk ((s.data.reverse.dropWhile (fun c => c == '/' || c == '\\')).reverse)

/-- `os.path.basename`, POSIX: everything after the last `'/'`. -/
def basenamePosix (s : String) : String :=
  String.mk ((s.data.reverse.takeWhile (fun c => c != '/')).reverse)

/-- `input_dir_base_name = os.path.basename(input_dir_abs.rstrip('/\\'))`
(file_handler.py line 33). -/
def inputDirBaseName (input_dir_abs : String) : String :=
  basenamePosix (rstripSlashes input_dir_abs)

/-- `file_path = os.path.join(root, item_name)` (line 48): the scanned root
followed by the entry's subdirectory components and its name. -/
def filePathOf (input_dir_abs : String) (e : FileEntry) : String :=
  joinPath (input_dir_abs :: (e.subdir ++ [e.name]))

/-- The true `os.path.relpath(file_path, start=input_dir_abs)` (line 53),
which for a walk-produced path is the subdirectory components plus the
name. -/
def realRelPath (e : FileEntry) : String := joinPath (e.subdir ++ [e.name])

/-- `relative_path` as the source computes it: the real relative path, or
the bare `item_name` when `os.path.relpath` raised (lines 52-57). -/
def relPathOf (e : FileEntry) : String :=
  if e.relpathFails then e.name else realRelPath e

/-! ### The generator -/

/-- The metadata dict the source builds for a successful item
(lines 66-73 for images, 116-123 for PDF pages). -/
def mkMetadata (input_dir_abs : String) (e : FileEntry) (kind : SourceType)
    (p : Nat) : Metadata :=
  { input_directory := inputDirBaseName input_dir_abs
    relative_path := relPathOf e
    original_filename := e.name
    source_path := filePathOf input_dir_abs e
    source_type := kind
    page_num := p }

/-- One iteration of the per-page loop (lines 101-136): issue exactly one
single-page render call `first_page = last_page = p` at the configured DPI;
on a nonempty result yield the page item, on an empty list (line 128-130)
or a raised exception (lines 132-136) yield `(None, None)`. -/
def pdfPageStep (input_dir_abs : String) (dpi : Nat) (e : FileEntry)
    (p : Nat) : RenderCall × Item :=
  let call : RenderCall :=
    { file_path := filePathOf input_dir_abs e
      dpi := dpi
      first_page := p
      last_page := p }
  match e.render p p with
  | some (img :: _) => (call, (some (mkMetadata input_dir_abs e .pdf_page p), some img))
  | some [] => (call, (none, none))
  | none => (call, (none, none))

/-- Processing of one directory entry (the body of the inner loop, lines
47-148): classification by extension, then the image branch (lines 60-82),
the PDF branch (lines 85-148), or the silent skip.  Returns the render
calls issued and the items yielded for this entry. -/
def processEntry (input_dir_abs : String) (dpi : Nat) (e : FileEntry) :
    List RenderCall × List Item :=
  if extOf e.name ∈ SUPPORTED_IMAGE_EXT then
    -- image branch: decode fully, one Ok item, or one (None, None) on
    -- UnidentifiedImageError / any other exception
    match e.imageOpen with
    | some img => ([], [(some (mkMetadata input_dir_abs e .image 1), some img)])
    | none => ([], [(none, none)])
  else if extOf e.name ∈ SUPPORTED_PDF_EXT then
    match e.pdfInfo with
    | some total_pages =>
      if total_pages = 0 then
        -- `if total_pages <= 0: continue` (lines 94-96): no item at all
        ([], [])
      else
        let steps := (List.range' 1 total_pages).map (pdfPageStep input_dir_abs dpi e)
        (steps.map Prod.fst, steps.map Prod.snd)
    | none =>
      -- pdfinfo raised (PDFInfoNotInstalledError / PDFPageCountError /
      -- PDFSyntaxError / FileNotFoundError / Exception, lines 138-148):
      -- one (None, None) for the whole file, no render call
      ([], [(none, none)])
  else
    -- unsupported extension: silently skipped (lines 150-153)
    ([], [])

/-- Items yielded for one entry. -/
def entryItems (input_dir_abs : String) (dpi : Nat) (e : FileEntry) : List Item :=
  (processEntry input_dir_abs dpi e).2

/-- Render calls issued for one entry. -/
def entryCalls (input_dir_abs : String) (dpi : Nat) (e : FileEntry) : List RenderCall :=
  (processEntry input_dir_abs dpi e).1

/-- The whole generator `iterate_document_items(input_dir_abs, config)`:
the render-call trace and the yielded items, in traversal order.  An
inaccessible root produces nothing (lines 155-158).  The function is
total: the source catches every exception inside the generator, so no
exception crosses the stream boundary. -/
def scanTrace (input_dir_abs : String) (config : Config) (inp : ScanInput) :
    List RenderCall × List Item :=
  match inp with
  | .inaccessible => ([], [])
  | .dirs entries =>
    ((entries.map (entryCalls input_dir_abs (configPdfDpi config))).flatten,
     (entries.map (entryItems input_dir_abs (configPdfDpi config))).flatten)

/-- The yielded item stream of `iterate_document_items`. -/
def iterate_document_items (input_dir_abs : String) (config : Config)
    (inp : ScanInput) : List Item :=
  (scanTrace input_dir_abs config inp).2

/-- The trace of `convert_from_path` calls made during one scan. -/
def renderCallsOf (input_dir_abs : String) (config : Config)
    (inp : ScanInput) : List RenderCall :=
  (scanTrace input_dir_abs config inp).1

/-- The `(relative_path, page_num)` key of an `Ok` item; `none` for a
failure sentinel. -/
def okItemKey : Item → Option (String × Nat)
  | (some m, some _) => some (m.relative_path, m.page_num)
  | _ => none

/-- The `(relative_path, page_num)` keys of the `Ok` items of a stream, in
order. -/
def okKeys (items : List Item) : List (String × Nat) :=
  items.filterMap okItemKey

/-! ### Concrete entries and configuration used in instantiations -/

/-- An image-classified file at the root whose decode yields `res`. -/
def imageEntry (nm : String) (res : Option RasterImage) : FileEntry :=
  { subdir := [], name := nm, relpathFails := false, imageOpen := res,
    pdfInfo := none, render := fun _ _ => none }

/-- A PDF-classified file at the root with probe outcome `info` and render
behaviour `rend`. -/
def pdfEntry (nm : String) (info : Option Nat)
    (rend : Nat → Nat → Option (List RasterImage)) : FileEntry :=
  { subdir := [], name := nm, relpathFails := false, imageOpen := none,
    pdfInfo := info, render := rend }

def cfgEx : Config := { pdf_dpi := some 200 }

/-- A PDF whose page-count probe raises. -/
def probeFailPdf : FileEntry := pdfEntry "broken.pdf" none (fun _ _ => none)

/-- A PDF whose page-count probe reports zero pages. -/
def zeroPagePdf : FileEntry := pdfEntry "z.pdf" (some 0) (fun _ _ => none)

/-- A 3-page PDF whose page 2 render raises (Scenario B). -/
def threePagePdf : FileEntry :=
  pdfEntry "b.pdf" (some 3)
    (fun f _ => if f = 2 then none else some [{ imgId := f }])

/-- A 2-page PDF with an upper-case extension, rendering successfully. -/
def twoPagePdf : FileEntry :=
  pdfEntry "c.PDF" (some 2) (fun f _ => some [{ imgId := 10 + f }])

/-- A PNG that decodes successfully. -/
def goodPng : FileEntry := imageEntry "b.png" (some { imgId := 1 })

/-- A PNG whose decode raises. -/
def badPng : FileEntry := imageEntry "bad.png" none

/-- An unsupported file. -/
def txtFile : FileEntry := imageEntry "a.txt" none

/-- `a.png` at the root, decoding successfully. -/
def dupRoot : FileEntry := imageEntry "a.png" (some { imgId := 21 })

/-- `sub/a.png`, whose relative-path computation fails so that the bare
filename `a.png` is used — colliding with `dupRoot`. -/
def dupSub : FileEntry :=
  { subdir := ["sub"], name := "a.png", relpathFails := true,
    imageOpen := some { imgId := 22 }, pdfInfo := none,
    render := fun _ _ => none }

/-- `sub/f.png` whose relative-path computation fails. -/
def fallbackPng : FileEntry :=
  { subdir := ["sub"], name := "f.png", relpathFails := true,
    imageOpen := some { imgId := 30 }, pdfInfo := none,
    render := fun _ _ => none }

/-- Replace the `relative_path` field of a successful item's metadata. -/
def setRelName (nm : String) : Item → Item
  | (some m, i) => (some { m with relative_path := nm }, i)
  | (none, i) => (none, i)

/-! ### Helper lemmas -/

theorem pdf_ext_not_image_ext {s : String} (h : s ∈ SUPPORTED_PDF_EXT) :
    s ∉ SUPPORTED_IMAGE_EXT := by
  simp only [SUPPORTED_PDF_EXT, List.mem_singleton] at h
  subst h
  decide

theorem processEntry_image_ok (root : String) (dpi : Nat) (e : FileEntry)
    (img : RasterImage) (hext : extOf e.name ∈ SUPPORTED_IMAGE_EXT)
    (hopen : e.imageOpen = some img) :
    processEntry root dpi e = ([], [(some (mkMetadata root e .image 1), some img)]) := by
  unfold processEntry
  rw [if_pos hext, hopen]

theorem processEntry_image_err (root : String) (dpi : Nat) (e : FileEntry)
    (hext : extOf e.name ∈ SUPPORTED_IMAGE_EXT) (hopen : e.imageOpen = none) :
    processEntry root dpi e = ([], [(none, none)]) := by
  unfold processEntry
  rw [if_pos hext, hopen]

theorem processEntry_pdf_info_err (root : String) (dpi : Nat) (e : FileEntry)
    (hext : extOf e.name ∈ SUPPORTED_PDF_EXT) (hinfo : e.pdfInfo = none) :
    processEntry root dpi e = ([], [(none, none)]) := by
  unfold processEntry
  rw [if_neg (pdf_ext_not_image_ext hext), if_pos hext, hinfo]

theorem processEntry_pdf_zero_pages (root : String) (dpi : Nat) (e : FileEntry)
    (hext : extOf e.name ∈ SUPPORTED_PDF_EXT) (hinfo : e.pdfInfo = some 0) :
    processEntry root dpi e = ([], []) := by
  unfold processEntry
  rw [if_neg (pdf_ext_not_image_ext hext), if_pos hext, hinfo]
  simp

theorem processEntry_pdf_pages (root : String) (dpi : Nat) (e : FileEntry)
    (n : Nat) (hext : extOf e.name ∈ SUPPORTED_PDF_EXT)
    (hinfo : e.pdfInfo = some n) (hn : n ≠ 0) :
    processEntry root dpi e =
      (((List.range' 1 n).map (pdfPageStep root dpi e)).map Prod.fst,
       ((List.range' 1 n).map (pdfPageStep root dpi e)).map Prod.snd) := by
  unfold processEntry
  rw [if_neg (pdf_ext_not_image_ext hext), if_pos hext, hinfo]
  simp [hn]

theorem processEntry_skip (root : String) (dpi : Nat) (e : FileEntry)
    (himg : extOf e.name ∉ SUPPORTED_IMAGE_EXT)
    (hpdf : extOf e.name ∉ SUPPORTED_PDF_EXT) :
    processEntry root dpi e = ([], []) := by
  unfold processEntry
  rw [if_neg himg, if_neg hpdf]

theorem scan_items_eq (root : String) (cfg : Config) (entries : List FileEntry) :
    iterate_document_items root cfg (.dirs entries) =
      (entries.map (entryItems root (configPdfDpi cfg))).flatten := rfl

theorem scan_calls_eq (root : String) (cfg : Config) (entries : List FileEntry) :
    renderCallsOf root cfg (.dirs entries) =
      (entries.map (entryCalls root (configPdfDpi cfg))).flatten := rfl

theorem scan_items_split (root : String) (cfg : Config)
    (pre post : List FileEntry) (e : FileEntry) :
    iterate_document_items root cfg (.dirs (pre ++ e :: post)) =
      iterate_document_items root cfg (.dirs pre) ++
        entryItems root (configPdfDpi cfg) e ++
          iterate_document_items root cfg (.dirs post) := by
  simp [scan_items_eq, List.append_assoc]

theorem scan_calls_split (root : String) (cfg : Config)
    (pre post : List FileEntry) (e : FileEntry) :
    renderCallsOf root cfg (.dirs (pre ++ e :: post)) =
      renderCallsOf root cfg (.dirs pre) ++
        entryCalls root (configPdfDpi cfg) e ++
          renderCallsOf root cfg (.dirs post) := by
  simp [scan_calls_eq, List.append_assoc]

theorem pdfPageStep_fst (root : String) (dpi : Nat) (e : FileEntry) (p : Nat) :
    (pdfPageStep root dpi e p).1 =
      { file_path := filePathOf root e, dpi := dpi,
        first_page := p, last_page := p } := by
  unfold pdfPageStep
  cases h : e.render p p with
  | none => rfl
  | some l => cases l <;> rfl

theorem pdfPageStep_snd_err (root : String) (dpi : Nat) (e : FileEntry)
    (p : Nat) (h : e.render p p = none) :
    (pdfPageStep root dpi e p).2 = (none, none) := by
  simp only [pdfPageStep, h]

theorem pdfPageStep_snd_empty (root : String) (dpi : Nat) (e : FileEntry)
    (p : Nat) (h : e.render p p = some []) :
    (pdfPageStep root dpi e p).2 = (none, none) := by
  simp only [pdfPageStep, h]

theorem pdfPageStep_snd_ok (root : String) (dpi : Nat) (e : FileEntry)
    (p : Nat) (img : RasterImage) (imgs : List RasterImage)
    (h : e.render p p = some (img :: imgs)) :
    (pdfPageStep root dpi e p).2 =
      (some (mkMetadata root e .pdf_page p), some img) := by
  simp only [pdfPageStep, h]

theorem entryItems_pdf_length (root : String) (dpi : Nat) (e : FileEntry)
    (n : Nat) (hext : extOf e.name ∈ SUPPORTED_PDF_EXT)
    (hinfo : e.pdfInfo = some n) :
    (entryItems root dpi e).length = n := by
  cases n with
  | zero => simp [entryItems, processEntry_pdf_zero_pages root dpi e hext hinfo]
  | succ m =>
    simp [entryItems,
      processEntry_pdf_pages root dpi e (m + 1) hext hinfo (Nat.succ_ne_zero m)]

theorem entryItems_pdf_getElem (root : String) (dpi : Nat) (e : FileEntry)
    (n q : Nat) (hext : extOf e.name ∈ SUPPORTED_PDF_EXT)
    (hinfo : e.pdfInfo = some n) (h1 : 1 ≤ q) (h2 : q ≤ n) :
    (entryItems root dpi e)[q - 1]? = some ((pdfPageStep root dpi e q).2) := by
  have hn : n ≠ 0 := by omega
  simp only [entryItems, processEntry_pdf_pages root dpi e n hext hinfo hn,
    List.map_map]
  rw [List.getElem?_map, List.getElem?_range' 1 1 (by omega : q - 1 < n)]
  have hq : 1 + 1 * (q - 1) = q := by omega
  rw [hq]
  rfl

/-! ### Claim C5 -/

/-- C5: for a root path that does not exist or cannot be listed, the stream
yields zero items (and issues no render call) and terminates;
`iterate_document_items` is a total function, so no exception passes the
stream boundary to the caller. -/
theorem inaccessible_root_yields_nothing (root : String) (cfg : Config) :
    iterate_document_items root cfg .inaccessible = [] ∧
    renderCallsOf root cfg .inaccessible = [] := ⟨rfl, rfl⟩

/-! ### Claim C6 -/

/-- C6: a file classified as an image whose decode fails contributes exactly
one `Failed` item `(none, none)` to the stream, and the scan continues with
the remaining files unchanged. -/
theorem image_decode_failure_isolated (root : String) (cfg : Config)
    (pre post : List FileEntry) (e : FileEntry)
    (hext : extOf e.name ∈ SUPPORTED_IMAGE_EXT) (hfail : e.imageOpen = none) :
    iterate_document_items root cfg (.dirs (pre ++ e :: post)) =
      iterate_document_items root cfg (.dirs pre) ++ [(none, none)] ++
        iterate_document_items root cfg (.dirs post) := by
  rw [scan_items_split]
  simp only [entryItems, processEntry_image_err root (configPdfDpi cfg) e hext hfail]

theorem image_decode_failure_isolated_witness :
    iterate_document_items "/data/in" cfgEx (.dirs [goodPng, badPng, twoPagePdf]) =
      iterate_document_items "/data/in" cfgEx (.dirs [goodPng]) ++ [(none, none)] ++
        iterate_document_items "/data/in" cfgEx (.dirs [twoPagePdf]) :=
  image_decode_failure_isolated "/data/in" cfgEx [goodPng] [twoPagePdf] badPng
    (by decide) rfl

/-! ### Claim C1 (corrected) -/

/-- C1 counterexample: `zeroPagePdf`'s page-count probe succeeds and reports
zero pages, yet the stream emits no item at all for the file — not the
"exactly one `Failed` item" the claim demands (the source `continue`s at
file_handler.py line 96). -/
theorem zero_page_pdf_emits_no_item :
    iterate_document_items "/in" cfgEx (.dirs [zeroPagePdf]) = [] := by decide

/-- C1 (amended): if the page-count probe raises, the stream emits exactly
one `Failed` item for the whole file; if it reports zero pages, the stream
emits no item at all for the file; in both cases no single-page render call
is made for the file and the scan moves on to the next file. -/
theorem pdf_probe_outcome_isolates_file (root : String) (cfg : Config)
    (pre post : List FileEntry) (e : FileEntry)
    (hext : extOf e.name ∈ SUPPORTED_PDF_EXT) :
    (e.pdfInfo = none →
      iterate_document_items root cfg (.dirs (pre ++ e :: post)) =
        iterate_document_items root cfg (.dirs pre) ++ [(none, none)] ++
          iterate_document_items root cfg (.dirs post) ∧
      renderCallsOf root cfg (.dirs (pre ++ e :: post)) =
        renderCallsOf root cfg (.dirs pre) ++
          renderCallsOf root cfg (.dirs post)) ∧
    (e.pdfInfo = some 0 →
      iterate_document_items root cfg (.dirs (pre ++ e :: post)) =
        iterate_document_items root cfg (.dirs pre) ++
          iterate_document_items root cfg (.dirs post) ∧
      renderCallsOf root cfg (.dirs (pre ++ e :: post)) =
        renderCallsOf root cfg (.dirs pre) ++
          renderCallsOf root cfg (.dirs post)) := by
  constructor
  · intro hinfo
    constructor
    · rw [scan_items_split]
      simp only [entryItems,
        processEntry_pdf_info_err root (configPdfDpi cfg) e hext hinfo]
    · rw [scan_calls_split]
      simp only [entryCalls,
        processEntry_pdf_info_err root (configPdfDpi cfg) e hext hinfo]
      simp
  · intro hinfo
    constructor
    · rw [scan_items_split]
      simp only [entryItems,
        processEntry_pdf_zero_pages root (configPdfDpi cfg) e hext hinfo]
      simp
    · rw [scan_calls_split]
      simp only [entryCalls,
        processEntry_pdf_zero_pages root (configPdfDpi cfg) e hext hinfo]
      simp

theorem pdf_probe_outcome_isolates_file_witness :
    iterate_document_items "/in" cfgEx (.dirs [goodPng, probeFailPdf]) =
      iterate_document_items "/in" cfgEx (.dirs [goodPng]) ++ [(none, none)] ++
        iterate_document_items "/in" cfgEx (.dirs []) ∧
    renderCallsOf "/in" cfgEx (.dirs [goodPng, probeFailPdf]) =
      renderCallsOf "/in" cfgEx (.dirs [goodPng]) ++
        renderCallsOf "/in" cfgEx (.dirs []) :=
  (pdf_probe_outcome_isolates_file "/in" cfgEx [goodPng] [] probeFailPdf
    (by decide)).1 rfl

/-! ### Claim C2 (corrected) -/

/-- C2 counterexample: for the 3-page PDF `threePagePdf` whose page 2
render raises, the stream yields Ok(page1), `(none, none)`, Ok(page3): the
`Failed` item for page 2 carries no descriptor, although the descriptor was
constructible (pages 1 and 3 of the same file get full descriptors). -/
theorem page_render_failure_yields_bare_sentinel :
    iterate_document_items "/in" cfgEx (.dirs [threePagePdf]) =
      [(some { input_directory := "in", relative_path := "b.pdf",
               original_filename := "b.pdf", source_path := "/in/b.pdf",
               source_type := .pdf_page, page_num := 1 },
        some { imgId := 1 }),
       (none, none),
       (some { input_directory := "in", relative_path := "b.pdf",
               original_filename := "b.pdf", source_path := "/in/b.pdf",
               source_type := .pdf_page, page_num := 3 },
        some { imgId := 3 })] := by decide

/-- C2 (amended): for every PDF page whose single-page render fails, the
stream yields in that page's position one `Failed` item carrying no
descriptor — always `(none, none)` — and then proceeds to the next page:
the entry still yields exactly one item per page, and every page whose
render succeeds is yielded as an `Ok` item with its own descriptor in its
own position. -/
theorem page_render_failure_isolated (root : String) (cfg : Config)
    (e : FileEntry) (n p : Nat)
    (hext : extOf e.name ∈ SUPPORTED_PDF_EXT) (hinfo : e.pdfInfo = some n)
    (hp1 : 1 ≤ p) (hpn : p ≤ n) (hfail : e.render p p = none) :
    (entryItems root (configPdfDpi cfg) e).length = n ∧
    (entryItems root (configPdfDpi cfg) e)[p - 1]? = some (none, none) ∧
    (∀ q img imgs, 1 ≤ q → q ≤ n → e.render q q = some (img :: imgs) →
      (entryItems root (configPdfDpi cfg) e)[q - 1]? =
        some (some (mkMetadata root e .pdf_page q), some img)) := by
  refine ⟨entryItems_pdf_length root (configPdfDpi cfg) e n hext hinfo, ?_, ?_⟩
  · rw [entryItems_pdf_getElem root (configPdfDpi cfg) e n p hext hinfo hp1 hpn,
      pdfPageStep_snd_err root (configPdfDpi cfg) e p hfail]
  · intro q img imgs hq1 hqn hok
    rw [entryItems_pdf_getElem root (configPdfDpi cfg) e n q hext hinfo hq1 hqn,
      pdfPageStep_snd_ok root (configPdfDpi cfg) e q img imgs hok]

theorem page_render_failure_isolated_witness :
    (entryItems "/in" (configPdfDpi cfgEx) threePagePdf).length = 3 ∧
    (entryItems "/in" (configPdfDpi cfgEx) threePagePdf)[2 - 1]? =
      some (none, none) ∧
    (∀ q img imgs, 1 ≤ q → q ≤ 3 →
      threePagePdf.render q q = some (img :: imgs) →
      (entryItems "/in" (configPdfDpi cfgEx) threePagePdf)[q - 1]? =
        some (some (mkMetadata "/in" threePagePdf .pdf_page q), some img)) :=
  page_render_failure_isolated "/in" cfgEx threePagePdf 3 2
    (by decide) rfl (by decide) (by decide) rfl

/-! ### Claim C3 -/

/-- C3: for every PDF whose probe reports M ≥ 1 pages, the scan issues
exactly one single-page render call per page_number 1..M, in order, each
with `first_page = last_page = page_number` and the configured DPI — so no
call ever requests more than one page. -/
theorem single_page_render_calls (root : String) (cfg : Config)
    (pre post : List FileEntry) (e : FileEntry) (M : Nat)
    (hext : extOf e.name ∈ SUPPORTED_PDF_EXT) (hinfo : e.pdfInfo = some M)
    (hM : 1 ≤ M) :
    renderCallsOf root cfg (.dirs (pre ++ e :: post)) =
      renderCallsOf root cfg (.dirs pre) ++
        (List.range' 1 M).map (fun p =>
          { file_path := filePathOf root e, dpi := configPdfDpi cfg,
            first_page := p, last_page := p }) ++
        renderCallsOf root cfg (.dirs post) := by
  rw [scan_calls_split]
  have hE : entryCalls root (configPdfDpi cfg) e =
      (List.range' 1 M).map (fun p =>
        ({ file_path := filePathOf root e, dpi := configPdfDpi cfg,
           first_page := p, last_page := p } : RenderCall)) := by
    simp only [entryCalls,
      processEntry_pdf_pages root (configPdfDpi cfg) e M hext hinfo
        (by omega : M ≠ 0),
      List.map_map]
    refine List.map_congr_left ?_
    intro p hp
    exact pdfPageStep_fst root (configPdfDpi cfg) e p
  rw [hE]

theorem single_page_render_calls_witness :
    renderCallsOf "/in" cfgEx (.dirs [goodPng, twoPagePdf]) =
      renderCallsOf "/in" cfgEx (.dirs [goodPng]) ++
        (List.range' 1 2).map (fun p =>
          { file_path := filePathOf "/in" twoPagePdf, dpi := configPdfDpi cfgEx,
            first_page := p, last_page := p }) ++
        renderCallsOf "/in" cfgEx (.dirs []) :=
  single_page_render_calls "/in" cfgEx [goodPng] [] twoPagePdf 2
    (by decide) rfl (by decide)

/-! ### Claim C4 -/

/-- C4: items are yielded in the scanner's traversal order — the stream is
the in-order concatenation of each entry's item list — and within any one
PDF the pages occupy consecutive positions in strictly ascending
page-number order with no reordering or skipping: for a PDF probed at `n`
pages the entry yields exactly `n` items, position `p - 1` holds exactly
page `p`'s item (so a failed page still occupies its position before the
next page is attempted), and an `Ok` item at that position carries
`page_num = p`. -/
theorem items_traversal_and_page_order (root : String) (cfg : Config)
    (entries : List FileEntry) :
    iterate_document_items root cfg (.dirs entries) =
      (entries.map (entryItems root (configPdfDpi cfg))).flatten ∧
    ∀ e ∈ entries, ∀ n, extOf e.name ∈ SUPPORTED_PDF_EXT → e.pdfInfo = some n →
      (entryItems root (configPdfDpi cfg) e).length = n ∧
      ∀ p, 1 ≤ p → p ≤ n →
        (entryItems root (configPdfDpi cfg) e)[p - 1]? =
          some ((pdfPageStep root (configPdfDpi cfg) e p).2) ∧
        ∀ m img,
          (pdfPageStep root (configPdfDpi cfg) e p).2 = (some m, some img) →
          m.page_num = p := by
  refine ⟨rfl, ?_⟩
  intro e he n hext hinfo
  refine ⟨entryItems_pdf_length root (configPdfDpi cfg) e n hext hinfo, ?_⟩
  intro p hp1 hpn
  refine ⟨entryItems_pdf_getElem root (configPdfDpi cfg) e n p hext hinfo hp1 hpn, ?_⟩
  intro m img hmi
  cases hr : e.render p p with
  | none =>
    rw [pdfPageStep_snd_err root (configPdfDpi cfg) e p hr] at hmi
    simp at hmi
  | some l =>
    cases l with
    | nil =>
      rw [pdfPageStep_snd_empty root (configPdfDpi cfg) e p hr] at hmi
      simp at hmi
    | cons i is =>
      rw [pdfPageStep_snd_ok root (configPdfDpi cfg) e p i is hr] at hmi
      have hm : m = mkMetadata root e .pdf_page p := by
        have h1 := congrArg Prod.fst hmi
        simpa using h1.symm
      subst hm
      rfl

theorem items_traversal_and_page_order_witness :
    (entryItems "/in" (configPdfDpi cfgEx) threePagePdf)[3 - 1]? =
      some ((pdfPageStep "/in" (configPdfDpi cfgEx) threePagePdf 3).2) :=
  (((items_traversal_and_page_order "/in" cfgEx [threePagePdf]).2 threePagePdf
      (List.mem_cons_self threePagePdf []) 3 (by decide) rfl).2 3
      (by decide) (by decide)).1

/-! ### Claim C7 -/

/-- C7: classification is by extension only, case-insensitively (the name
is lower-cased before its extension is taken), against the fixed sets
`SUPPORTED_IMAGE_EXT` and `SUPPORTED_PDF_EXT`; a file matching neither set
is silently skipped — it contributes no item and no render call, and the
scan continues unchanged; concretely, a root with one `.txt`, one `.png`
and one 2-page PDF (named with upper-case `.PDF`) yields exactly 3 items,
none of them from the `.txt` file. -/
theorem unsupported_extension_silently_skipped (root : String) (cfg : Config)
    (pre post : List FileEntry) (e : FileEntry)
    (himg : extOf e.name ∉ SUPPORTED_IMAGE_EXT)
    (hpdf : extOf e.name ∉ SUPPORTED_PDF_EXT) :
    (iterate_document_items root cfg (.dirs (pre ++ e :: post)) =
      iterate_document_items root cfg (.dirs pre) ++
        iterate_document_items root cfg (.dirs post)) ∧
    (renderCallsOf root cfg (.dirs (pre ++ e :: post)) =
      renderCallsOf root cfg (.dirs pre) ++
        renderCallsOf root cfg (.dirs post)) ∧
    iterate_document_items "/in" cfgEx (.dirs [txtFile, goodPng, twoPagePdf]) =
      [(some (mkMetadata "/in" goodPng .image 1), some { imgId := 1 }),
       (some (mkMetadata "/in" twoPagePdf .pdf_page 1), some { imgId := 11 }),
       (some (mkMetadata "/in" twoPagePdf .pdf_page 2), some { imgId := 12 })] := by
  refine ⟨?_, ?_, by decide⟩
  · rw [scan_items_split]
    simp only [entryItems, processEntry_skip root (configPdfDpi cfg) e himg hpdf]
    simp
  · rw [scan_calls_split]
    simp only [entryCalls, processEntry_skip root (configPdfDpi cfg) e himg hpdf]
    simp

theorem unsupported_extension_silently_skipped_witness :
    iterate_document_items "/in" cfgEx (.dirs [txtFile, goodPng]) =
      iterate_document_items "/in" cfgEx (.dirs []) ++
        iterate_document_items "/in" cfgEx (.dirs [goodPng]) :=
  (unsupported_extension_silently_skipped "/in" cfgEx [] [goodPng] txtFile
    (by decide) (by decide)).1

/-! ### Claim C9 -/

theorem pdfPageStep_snd_fallback (root : String) (dpi : Nat) (e : FileEntry)
    (p : Nat) :
    (pdfPageStep root dpi { e with relpathFails := true } p).2 =
      setRelName e.name
        ((pdfPageStep root dpi { e with relpathFails := false } p).2) := by
  cases hr : e.render p p with
  | none =>
    rw [pdfPageStep_snd_err root dpi { e with relpathFails := true } p hr,
      pdfPageStep_snd_err root dpi { e with relpathFails := false } p hr]
    rfl
  | some l =>
    cases l with
    | nil =>
      rw [pdfPageStep_snd_empty root dpi { e with relpathFails := true } p hr,
        pdfPageStep_snd_empty root dpi { e with relpathFails := false } p hr]
      rfl
    | cons i is =>
      rw [pdfPageStep_snd_ok root dpi { e with relpathFails := true } p i is hr,
        pdfPageStep_snd_ok root dpi { e with relpathFails := false } p i is hr]
      rfl

theorem entryItems_relpath_fallback (root : String) (dpi : Nat) (e : FileEntry) :
    entryItems root dpi { e with relpathFails := true } =
      (entryItems root dpi { e with relpathFails := false }).map
        (setRelName e.name) := by
  obtain ⟨sub, nm, rp, io, pinfo, rd⟩ := e
  show entryItems root dpi ⟨sub, nm, true, io, pinfo, rd⟩ =
    (entryItems root dpi ⟨sub, nm, false, io, pinfo, rd⟩).map (setRelName nm)
  by_cases h1 : extOf nm ∈ SUPPORTED_IMAGE_EXT
  · cases io with
    | some img =>
      simp only [entryItems,
        processEntry_image_ok root dpi ⟨sub, nm, true, some img, pinfo, rd⟩ img h1 rfl,
        processEntry_image_ok root dpi ⟨sub, nm, false, some img, pinfo, rd⟩ img h1 rfl]
      rfl
    | none =>
      simp only [entryItems,
        processEntry_image_err root dpi ⟨sub, nm, true, none, pinfo, rd⟩ h1 rfl,
        processEntry_image_err root dpi ⟨sub, nm, false, none, pinfo, rd⟩ h1 rfl]
      rfl
  · by_cases h2 : extOf nm ∈ SUPPORTED_PDF_EXT
    · cases pinfo with
      | none =>
        simp only [entryItems,
          processEntry_pdf_info_err root dpi ⟨sub, nm, true, io, none, rd⟩ h2 rfl,
          processEntry_pdf_info_err root dpi ⟨sub, nm, false, io, none, rd⟩ h2 rfl]
        rfl
      | some n =>
        cases n with
        | zero =>
          simp only [entryItems,
            processEntry_pdf_zero_pages root dpi ⟨sub, nm, true, io, some 0, rd⟩ h2 rfl,
            processEntry_pdf_zero_pages root dpi ⟨sub, nm, false, io, some 0, rd⟩ h2 rfl]
          rfl
        | succ m =>
          simp only [entryItems,
            processEntry_pdf_pages root dpi ⟨sub, nm, true, io, some (m + 1), rd⟩
              (m + 1) h2 rfl (Nat.succ_ne_zero m),
            processEntry_pdf_pages root dpi ⟨sub, nm, false, io, some (m + 1), rd⟩
              (m + 1) h2 rfl (Nat.succ_ne_zero m),
            List.map_map]
          refine List.map_congr_left ?_
          intro p hp
          exact pdfPageStep_snd_fallback root dpi ⟨sub, nm, rp, io, some (m + 1), rd⟩ p
    · simp only [entryItems,
        processEntry_skip root dpi ⟨sub, nm, true, io, pinfo, rd⟩ h1 h2,
        processEntry_skip root dpi ⟨sub, nm, false, io, pinfo, rd⟩ h1 h2]
      rfl

/-- C9: for an entry whose relative-path computation fails, the scan
recovers locally: the entry yields exactly the items it would have yielded
had the computation succeeded, with only the `relative_path` metadata field
replaced by the bare filename — in particular no `Failed` item is added for
the entry — and the scan continues with the remaining files unchanged. -/
theorem relpath_failure_degrades_to_filename (root : String) (cfg : Config)
    (pre post : List FileEntry) (e : FileEntry) (hfb : e.relpathFails = true) :
    iterate_document_items root cfg (.dirs (pre ++ e :: post)) =
      iterate_document_items root cfg (.dirs pre) ++
        (entryItems root (configPdfDpi cfg) { e with relpathFails := false }).map
          (setRelName e.name) ++
        iterate_document_items root cfg (.dirs post) := by
  have he : ({ e with relpathFails := true } : FileEntry) = e := by
    cases e
    simp only at hfb
    simp [hfb]
  rw [scan_items_split, ← entryItems_relpath_fallback root (configPdfDpi cfg) e, he]

theorem relpath_failure_degrades_to_filename_witness :
    iterate_document_items "/in" cfgEx (.dirs [fallbackPng]) =
      iterate_document_items "/in" cfgEx (.dirs []) ++
        (entryItems "/in" (configPdfDpi cfgEx)
          { fallbackPng with relpathFails := false }).map
          (setRelName fallbackPng.name) ++
        iterate_document_items "/in" cfgEx (.dirs []) :=
  relpath_failure_degrades_to_filename "/in" cfgEx [] [] fallbackPng rfl

/-! ### Claim C10 -/

/-- C10: every yielded item is either a pair with both components present —
a metadata descriptor whose `source_type` is 'image' with `page_num` 1, or
'pdf_page' with `page_num` between 1 and the page count probed for some
scanned entry, together with a decoded image — or the pair `(none, none)`;
no item ever has exactly one of the two components missing. -/
theorem yielded_item_shape (root : String) (cfg : Config)
    (entries : List FileEntry) (it : Item)
    (hit : it ∈ iterate_document_items root cfg (.dirs entries)) :
    it = (none, none) ∨
    ∃ m img, it = (some m, some img) ∧
      ((m.source_type = .image ∧ m.page_num = 1) ∨
       (m.source_type = .pdf_page ∧
        ∃ e ∈ entries, ∃ n, e.pdfInfo = some n ∧
          1 ≤ m.page_num ∧ m.page_num ≤ n)) := by
  rw [scan_items_eq, List.mem_flatten] at hit
  obtain ⟨l, hl, hitl⟩ := hit
  rw [List.mem_map] at hl
  obtain ⟨e, he, rfl⟩ := hl
  by_cases h1 : extOf e.name ∈ SUPPORTED_IMAGE_EXT
  · cases ho : e.imageOpen with
    | some img =>
      rw [entryItems, processEntry_image_ok root (configPdfDpi cfg) e img h1 ho,
        List.mem_singleton] at hitl
      subst hitl
      exact Or.inr ⟨_, _, rfl, Or.inl ⟨rfl, rfl⟩⟩
    | none =>
      rw [entryItems, processEntry_image_err root (configPdfDpi cfg) e h1 ho,
        List.mem_singleton] at hitl
      exact Or.inl hitl
  · by_cases h2 : extOf e.name ∈ SUPPORTED_PDF_EXT
    · cases hi : e.pdfInfo with
      | none =>
        rw [entryItems, processEntry_pdf_info_err root (configPdfDpi cfg) e h2 hi,
          List.mem_singleton] at hitl
        exact Or.inl hitl
      | some n =>
        by_cases hn : n = 0
        · subst hn
          rw [entryItems,
            processEntry_pdf_zero_pages root (configPdfDpi cfg) e h2 hi] at hitl
          exact absurd hitl (List.not_mem_nil it)
        · rw [entryItems,
            processEntry_pdf_pages root (configPdfDpi cfg) e n h2 hi hn,
            List.mem_map] at hitl
          obtain ⟨pr, hpr, hstep⟩ := hitl
          rw [List.mem_map] at hpr
          obtain ⟨q, hq, rfl⟩ := hpr
          rw [List.mem_range'] at hq
          obtain ⟨i, hin, rfl⟩ := hq
          cases hr : e.render (1 + 1 * i) (1 + 1 * i) with
          | none =>
            rw [pdfPageStep_snd_err root (configPdfDpi cfg) e (1 + 1 * i) hr] at hstep
            exact Or.inl hstep.symm
          | some l =>
            cases l with
            | nil =>
              rw [pdfPageStep_snd_empty root (configPdfDpi cfg) e (1 + 1 * i) hr] at hstep
              exact Or.inl hstep.symm
            | cons img imgs =>
              rw [pdfPageStep_snd_ok root (configPdfDpi cfg) e (1 + 1 * i) img imgs hr]
                at hstep
              refine Or.inr ⟨mkMetadata root e .pdf_page (1 + 1 * i), img,
                hstep.symm, Or.inr ⟨rfl, e, he, n, hi, ?_, ?_⟩⟩
              · show 1 ≤ 1 + 1 * i
                omega
              · show 1 + 1 * i ≤ n
                omega
    · rw [entryItems, processEntry_skip root (configPdfDpi cfg) e h1 h2] at hitl
      exact absurd hitl (List.not_mem_nil it)

theorem yielded_item_shape_witness :
    ((none, none) : Item) = (none, none) ∨
    ∃ m img, ((none, none) : Item) = (some m, some img) ∧
      ((m.source_type = .image ∧ m.page_num = 1) ∨
       (m.source_type = .pdf_page ∧
        ∃ e ∈ [badPng], ∃ n, e.pdfInfo = some n ∧
          1 ≤ m.page_num ∧ m.page_num ≤ n)) :=
  yielded_item_shape "/in" cfgEx [badPng] (none, none) (by decide)

/-! ### Claim C8 (corrected) -/

theorem okKeys_append (l l' : List Item) :
    okKeys (l ++ l') = okKeys l ++ okKeys l' :=
  List.filterMap_append l l' okItemKey

theorem okKeys_flatten (L : List (List Item)) :
    okKeys L.flatten = (L.map okKeys).flatten := by
  induction L with
  | nil => rfl
  | cons l ls ih =>
    rw [List.flatten_cons, okKeys_append, ih, List.map_cons, List.flatten_cons]

theorem okItemKey_pdfStep (root : String) (dpi : Nat) (e : FileEntry)
    (p : Nat) (k : String × Nat)
    (h : okItemKey (pdfPageStep root dpi e p).2 = some k) :
    k = (relPathOf e, p) := by
  cases hr : e.render p p with
  | none =>
    rw [pdfPageStep_snd_err root dpi e p hr] at h
    exact Option.noConfusion h
  | some l =>
    cases l with
    | nil =>
      rw [pdfPageStep_snd_empty root dpi e p hr] at h
      exact Option.noConfusion h
    | cons i is =>
      rw [pdfPageStep_snd_ok root dpi e p i is hr] at h
      exact (Option.some.inj h).symm

theorem okKeys_entry_key (root : String) (dpi : Nat) (e : FileEntry)
    (k : String × Nat) (hk : k ∈ okKeys (entryItems root dpi e)) :
    k.1 = relPathOf e := by
  by_cases h1 : extOf e.name ∈ SUPPORTED_IMAGE_EXT
  · cases ho : e.imageOpen with
    | some img =>
      rw [entryItems, processEntry_image_ok root dpi e img h1 ho] at hk
      have hE : okKeys [(some (mkMetadata root e .image 1), some img)] =
          [(relPathOf e, 1)] := rfl
      rw [hE, List.mem_singleton] at hk
      rw [hk]
    | none =>
      rw [entryItems, processEntry_image_err root dpi e h1 ho] at hk
      exact absurd hk (List.not_mem_nil k)
  · by_cases h2 : extOf e.name ∈ SUPPORTED_PDF_EXT
    · cases hi : e.pdfInfo with
      | none =>
        rw [entryItems, processEntry_pdf_info_err root dpi e h2 hi] at hk
        exact absurd hk (List.not_mem_nil k)
      | some n =>
        by_cases hn : n = 0
        · subst hn
          rw [entryItems, processEntry_pdf_zero_pages root dpi e h2 hi] at hk
          exact absurd hk (List.not_mem_nil k)
        · rw [entryItems, processEntry_pdf_pages root dpi e n h2 hi hn, okKeys,
            List.filterMap_map, List.filterMap_map, List.mem_filterMap] at hk
          obtain ⟨p, hp, hkey⟩ := hk
          rw [okItemKey_pdfStep root dpi e p k hkey]
    · rw [entryItems, processEntry_skip root dpi e h1 h2] at hk
      exact absurd hk (List.not_mem_nil k)

theorem okKeys_entry_nodup (root : String) (dpi : Nat) (e : FileEntry) :
    (okKeys (entryItems root dpi e)).Nodup := by
  by_cases h1 : extOf e.name ∈ SUPPORTED_IMAGE_EXT
  · cases ho : e.imageOpen with
    | some img =>
      rw [entryItems, processEntry_image_ok root dpi e img h1 ho]
      exact List.nodup_singleton _
    | none =>
      rw [entryItems, processEntry_image_err root dpi e h1 ho]
      exact List.nodup_nil
  · by_cases h2 : extOf e.name ∈ SUPPORTED_PDF_EXT
    · cases hi : e.pdfInfo with
      | none =>
        rw [entryItems, processEntry_pdf_info_err root dpi e h2 hi]
        exact List.nodup_nil
      | some n =>
        by_cases hn : n = 0
        · subst hn
          rw [entryItems, processEntry_pdf_zero_pages root dpi e h2 hi]
          exact List.nodup_nil
        · rw [entryItems, processEntry_pdf_pages root dpi e n h2 hi hn, okKeys,
            List.filterMap_map, List.filterMap_map]
          refine List.Nodup.filterMap ?_ (List.nodup_range' 1 n)
          intro a a' b hb hb'
          rw [Option.mem_def] at hb hb'
          have ha := okItemKey_pdfStep root dpi e a b hb
          have ha' := okItemKey_pdfStep root dpi e a' b hb'
          exact congrArg Prod.snd (ha.symm.trans ha')
    · rw [entryItems, processEntry_skip root dpi e h1 h2]
      exact List.nodup_nil

theorem relPathOf_no_fallback (e : FileEntry) (h : e.relpathFails = false) :
    relPathOf e = realRelPath e := by
  simp [relPathOf, h]

/-- C8 counterexample: the scan of `a.png` at the root together with
`sub/a.png` — whose relative-path computation fell back to the bare
filename — yields two `Ok` items that share
`(relative_path, page_number) = ("a.png", 1)`. -/
theorem fallback_breaks_key_uniqueness :
    okKeys (iterate_document_items "/in" cfgEx (.dirs [dupRoot, dupSub])) =
      [("a.png", 1), ("a.png", 1)] := by decide

/-- C8 (amended): across a single scan in which relative-path computation
succeeded for every entry (no bare-filename fallback) and the walk listed
entries with pairwise-distinct relative paths, no two yielded `Ok` items
share `(relative_path, page_number)`.  The claim's further allowance —
uniqueness "even when relative-path computation fell back to the bare
filename for some entries" — is false: the counterexample shows a fallback
entry colliding with another entry's key. -/
theorem ok_item_keys_unique (root : String) (cfg : Config)
    (entries : List FileEntry)
    (hnf : ∀ e ∈ entries, e.relpathFails = false)
    (hdist : entries.Pairwise (fun a b => realRelPath a ≠ realRelPath b)) :
    (okKeys (iterate_document_items root cfg (.dirs entries))).Nodup := by
  rw [scan_items_eq, okKeys_flatten, List.map_map, List.nodup_flatten]
  constructor
  · intro l hl
    rw [List.mem_map] at hl
    obtain ⟨e, he, rfl⟩ := hl
    exact okKeys_entry_nodup root (configPdfDpi cfg) e
  · rw [List.pairwise_map]
    refine hdist.imp_of_mem ?_
    intro a b ha hb hne k hka hkb
    have h1 := okKeys_entry_key root (configPdfDpi cfg) a k hka
    have h2 := okKeys_entry_key root (configPdfDpi cfg) b k hkb
    rw [relPathOf_no_fallback a (hnf a ha)] at h1
    rw [relPathOf_no_fallback b (hnf b hb)] at h2
    exact hne (h1.symm.trans h2)

theorem ok_item_keys_unique_witness :
    (okKeys (iterate_document_items "/in" cfgEx
      (.dirs [goodPng, twoPagePdf]))).Nodup :=
  ok_item_keys_unique "/in" cfgEx [goodPng, twoPagePdf] (by decide) (by decide)

end OcrPipeline
